import Mathlib

/-!
Shallow embedding of the story-progression and visual-continuity engine of
`src/backend/main.py` (an interactive illustrated story generator).

External capabilities (the text and image generation API, the filesystem and
the clock) are modelled as explicit parameters: the per-attempt behaviour of
the image capability is a function from the attempt index to an outcome, and
the remaining failure points of the orchestrator body (reference resolution,
decoding the returned bytes, persisting the file) are optional error values.
Python exceptions become `Except String`; optional request fields become
`Option String`, with Python string truthiness (`if s:`) modelled as
"present and non-empty".
-/

deriving instance DecidableEq for Except

namespace StoryWeaver

/-- Python truthiness of `s.strip()` for a string `s`: non-empty after
stripping whitespace, i.e. some character is not whitespace. -/
def stripNonempty (s : String) : Bool :=
  s.data.any (fun c => !c.isWhitespace)

/-- `IMAGE_CONSISTENCY_RULE` constant from `main.py` line 42. -/
def IMAGE_CONSISTENCY_RULE : String :=
  "you should maintain visual consistency for the main character based on the reference image provided. The character's appearance, features, clothing, and colors must be exactly the same. Now, generate the following scene:"

/-- A story choice: `class StoryChoice(BaseModel)` with fields `id` and `text`. -/
structure StoryChoice where
  id : String
  text : String
  deriving DecidableEq, Repr

/-- One produced story step: `class StoryResponse(BaseModel)`. -/
structure StoryResponse where
  text : String
  image_url : Option String
  choices : List StoryChoice
  main_quest : String
  deriving DecidableEq, Repr

/-- The advance request: `class NextStepRequest(BaseModel)`. A field that the
client omitted or sent as JSON null is `none` (the validator treats the two
identically: `'k' in data and data['k'] is not None`). -/
structure NextStepRequest where
  choice_id : Option String
  user_action : Option String
  story_history : List StoryResponse
  previous_image_url : Option String
  current_step : Nat
  total_steps : Nat
  deriving DecidableEq, Repr

/-- The start request: `class StoryStartRequest(BaseModel)`. -/
structure StoryStartRequest where
  character : Option String
  setting : String
  total_steps : Nat
  image_data_url : Option String
  deriving DecidableEq, Repr

/-- Parsed structured output of the narrative generator: the four-key JSON
object (`text`, `image_prompt`, `choices`, `main_quest`) that
`generate_story_part` returns after `json.loads`. -/
structure AiStoryData where
  text : String
  image_prompt : String
  choices : List StoryChoice
  main_quest : String
  deriving DecidableEq, Repr

/-- Python truthiness of an optional string: `if s:` is true exactly when the
value is present and non-empty. -/
def pyTruthy : Option String → Bool
  | some s => s ≠ ""
  | none => false

/-! ## Image Generation Client (`_blocking_image_generation`, lines 159-189) -/

/-- Outcome of one call to the image capability, as seen by one loop
iteration: either the call raises (transport error), or it returns a
response whose candidate content has a list of parts, each part carrying
`inline_data` (`some` payload) or not (`none`). Payload bytes are modelled
as an opaque `String`. -/
inductive AttemptOutcome where
  | transportError (msg : String)
  | response (parts : List (Option String))
  deriving DecidableEq, Repr

/-- The `for part in response.candidates[0].content.parts` scan: the first
part whose `inline_data is not None`, if any. -/
def firstInlineData : List (Option String) → Option String
  | [] => none
  | some d :: _ => some d
  | none :: rest => firstInlineData rest

/-- Error message raised when the call succeeds at transport level but no
part carries inline data (line 175). -/
def NO_IMAGE_DATA_MSG : String := "API虽成功但未返回图片数据"

/-- One iteration of the retry loop body: a transport error is the caught
exception; a transport-level success yields the first inline payload, or
raises `NO_IMAGE_DATA_MSG` (caught by the same `except`) when there is none. -/
def attemptResult : AttemptOutcome → Except String String
  | .transportError m => .error m
  | .response parts =>
    match firstInlineData parts with
    | some d => .ok d
    | none => .error NO_IMAGE_DATA_MSG

/-- `max_retries = 3` (line 164). -/
def MAX_RETRIES : Nat := 3

/-- `initial_delay = 2` (line 165). -/
def INITIAL_DELAY : Nat := 2

/-- The retry loop of `_blocking_image_generation` at attempt index
`attempt`, with `remaining` iterations of `for attempt in range(max_retries)`
still to run (the current one included; the loop invariant is
`attempt + remaining = MAX_RETRIES`). Returns the list of backoff delays
slept (in order) and the final result: the payload on the first successful
attempt, or the error of the last attempt once all attempts failed. The test
`attempt < max_retries - 1` (line 179) holds exactly when another iteration
remains, i.e. `remaining ≥ 2`; a delay of `initial_delay * 2 ** attempt` is
slept only then (line 181). The `remaining = 0` case is the unreachable
fallthrough `raise` after the loop (line 189). -/
def imageGenLoop (outcomes : Nat → AttemptOutcome) (attempt : Nat) :
    Nat → List Nat × Except String String
  | 0 => ([], .error "未能从API相应中获取图片数据，且重试机制异常结束")
  | remaining + 1 =>
    match attemptResult (outcomes attempt) with
    | .ok d => ([], .ok d)
    | .error e =>
      if remaining = 0 then
        ([], .error e)
      else
        let rest := imageGenLoop outcomes (attempt + 1) remaining
        (INITIAL_DELAY * 2 ^ attempt :: rest.1, rest.2)

/-- `_blocking_image_generation`: the whole retry loop, starting at attempt 0
with `MAX_RETRIES` iterations to run. First component: the backoff delays
actually slept; second: payload or the propagated last error. -/
def blocking_image_generation (outcomes : Nat → AttemptOutcome) :
    List Nat × Except String String :=
  imageGenLoop outcomes 0 MAX_RETRIES

/-! ## Continuity Image Orchestrator (`generate_consistent_image`, lines 193-223) -/

/-- Placeholder returned when the very first image fails (line 223). -/
def PLACEHOLDER_IMAGE_URL : String :=
  "https://via.placeholder.com/512x512.png?text=Image+Generation+Failed"

/-- Environment of one orchestrator call: every failure point of the `try`
body besides the image client itself, plus the data needed to build the
success address. `resolveErr` models an exception while resolving the
reference image (e.g. `Image.open` on the stored previous file),
`decodeErr` an exception in `Image.open(BytesIO(image_data))`, `persistErr`
an exception in `image.save`; `freshName` is the `uuid4` filename and
`baseUrl` the configured `BASE_URL`. -/
structure OrchEnv where
  resolveErr : Option String
  outcomes : Nat → AttemptOutcome
  decodeErr : Option String
  persistErr : Option String
  freshName : String
  baseUrl : String

/-- The `try` body of `generate_consistent_image` (lines 195-212): resolve
the reference, run the image client, decode, persist, and return the fresh
address; any exception along the way escapes to the `except` handler. -/
def orchBody (env : OrchEnv) : Except String String :=
  match env.resolveErr with
  | some e => .error e
  | none =>
    match (blocking_image_generation env.outcomes).2 with
    | .error e => .error e
    | .ok _data =>
      match env.decodeErr with
      | some e => .error e
      | none =>
        match env.persistErr with
        | some e => .error e
        | none => .ok (env.baseUrl ++ "/images/" ++ env.freshName)

/-- `generate_consistent_image`: run the body; on any exception fall back to
the previous image address when it is truthy (`if previous_image_url:`),
else to the fixed placeholder. Totality of this function is the embedding of
"never raises past the orchestrator boundary". -/
def generate_consistent_image (env : OrchEnv) (previous_image_url : Option String) :
    String :=
  match orchBody env with
  | .ok url => url
  | .error _ =>
    if pyTruthy previous_image_url then previous_image_url.getD ""
    else PLACEHOLDER_IMAGE_URL

/-! ## Request validation (`model_validator`s, lines 54-64 and 84-93) -/

/-- `data['choice_id'] is not None` (after presence check): truthiness of
presence only, an empty string still counts. -/
def choiceGiven (choice_id : Option String) : Bool :=
  choice_id.isSome

/-- `data['user_action'] is not None and data['user_action'].strip()`:
present with a non-blank value. -/
def actionGiven (user_action : Option String) : Bool :=
  match user_action with
  | some s => stripNonempty s
  | none => false

/-- `NextStepRequest.check_choice_or_action` (lines 84-93): rejects when both
of choice and action are given, and when neither is. -/
def check_choice_or_action (choice_id user_action : Option String) :
    Except String Unit :=
  if choiceGiven choice_id && actionGiven user_action then
    .error "不能同时提供 choice_id 和 user_action"
  else if !choiceGiven choice_id && !actionGiven user_action then
    .error "必须提供 choice_id 或 user_action 中的一个"
  else
    .ok ()

/-- `StoryStartRequest.check_character_or_image` (lines 54-64): at least one
of character / image data must be present and non-blank. -/
def check_character_or_image (character image_data_url : Option String) :
    Except String Unit :=
  let character_exists := match character with
    | some s => stripNonempty s
    | none => false
  let image_exists := match image_data_url with
    | some s => stripNonempty s
    | none => false
  if !character_exists && !image_exists then
    .error "必须提供 character 或 image_data_url 中的一个来指定故事主角。"
  else
    .ok ()

/-! ## Story Progression Controller (`next_step`, lines 276-343) -/

/-- Default quest line when the history is empty (lines 279 and 337). -/
def FALLBACK_QUEST : String := "继续探索"

/-- Default choice text when the `choice_id` cannot be resolved (line 286). -/
def FALLBACK_CHOICE_TEXT : String := "继续"

/-- `request.story_history[0].main_quest if request.story_history else "继续探索"`. -/
def mainQuestLine (history : List StoryResponse) : String :=
  match history with
  | [] => FALLBACK_QUEST
  | h :: _ => h.main_quest

/-- The choice-resolution loop (lines 286-292): start from the fallback text,
scan `story_history[-1].choices` in order and take the first choice whose id
matches; with an empty history the fallback is kept. -/
def resolveChoiceText (history : List StoryResponse) (cid : String) : String :=
  match history.getLast? with
  | none => FALLBACK_CHOICE_TEXT
  | some last_part =>
    match last_part.choices.find? (fun c => c.id == cid) with
    | some c => c.text
    | none => FALLBACK_CHOICE_TEXT

/-- `action_description_line` (lines 280-293): the free-action branch wins
when `user_action` is truthy, else the choice branch when `choice_id` is
truthy, else the line stays empty. -/
def actionDescriptionLine (req : NextStepRequest) : String :=
  if pyTruthy req.user_action then
    "接下来，主角决定自己行动，他/她想：'" ++ req.user_action.getD "" ++ "'。"
  else if pyTruthy req.choice_id then
    "在故事的最新发展中，主角选择了选项：'" ++
      resolveChoiceText req.story_history (req.choice_id.getD "") ++ "'。"
  else
    ""

/-- Narrative phase of an advance step. The opening phase is handled by the
separate start operation and has no representation here. -/
inductive Phase where
  | developing
  | climax
  | finale
  deriving DecidableEq, Repr

/-- The phase dispatch of `next_step` (lines 295-312):
`is_final_step = current_step == total_steps`, else
`current_step >= total_steps * 0.75`, else developing. The float comparison
`current >= total * 0.75` is exact (0.75 = 3/4 is a dyadic rational) and is
embedded as the integer comparison `4 * current ≥ 3 * total`. -/
def phaseOf (current_step total_steps : Nat) : Phase :=
  if current_step = total_steps then .finale
  else if 3 * total_steps ≤ 4 * current_step then .climax
  else .developing

/-- The `narrative_guidance` string for each phase (lines 296-312). -/
def narrativeGuidance (current_step total_steps : Nat) (quest : String) : String :=
  match phaseOf current_step total_steps with
  | .finale =>
    "这是故事的【最后一幕】。故事的核心任务是：“" ++ quest ++ "”。\n" ++
    "请你必须围绕这个核心任务，创作一个圆满、清晰的结局，确保主角最终完成了这个任务，并解决所有相关悬念。\n" ++
    "在你的JSON回答中，\"choices\"字段必须是一个【空数组 `[]`】，因为故事已经结束。"
  | .climax =>
    "现在是故事的第【" ++ toString current_step ++ "/" ++ toString total_steps ++
    "】幕，剧情已接近高潮。\n" ++
    "请创作一段紧张、关键的情节，将故事推向顶点，为最终解决主线任务做准备。"
  | .developing =>
    "现在是故事的第【" ++ toString current_step ++ "/" ++ toString total_steps ++
    "】幕，剧情正在发展阶段。\n" ++
    "请创作一段承上启下的情节。最重要的是，这一步必须让主角在完成主线任务：“" ++ quest ++
    "” 的道路上【取得明确的进展】。\n" ++
    "可以引入一个帮助解决主线的线索，或者克服一个通往主线的小障碍。"

/-- The transcript of prior steps (lines 313-315). -/
def storyContext (history : List StoryResponse) : String :=
  "这是已经发生的故事梗概，请你续写：\n\n" ++
    String.join (history.enum.map fun p =>
      "第 " ++ toString (p.1 + 1) ++ " 幕: " ++ p.2.text ++ "\n")

/-- The full continuation prompt (lines 316-323). -/
def continuationPrompt (req : NextStepRequest) : String :=
  storyContext req.story_history ++ "\n" ++
  actionDescriptionLine req ++ "\n\n" ++
  "--- 核心任务指令 (最重要！) ---\n" ++
  "请始终围绕故事主线：“" ++ mainQuestLine req.story_history ++ "”。\n" ++
  "--- 当前阶段叙事指令 ---\n" ++
  narrativeGuidance req.current_step req.total_steps (mainQuestLine req.story_history)

/-- Everything the advance operation produces or sends outward: the response
returned to the client, plus the prompts it sent to the two generators and
the intermediate lines the claims are about. -/
structure NextStepOutcome where
  response : StoryResponse
  prompt : String
  imagePrompt : String
  actionLine : String
  questLine : String
  deriving Repr

/-- The `next_step` endpoint body after validation (lines 277-343), given the
narrative generator's parsed output `ai` and the orchestrator environment
`env`: build the continuation prompt, force `choices` empty on the final
step, compose the image prompt by prefixing `IMAGE_CONSISTENCY_RULE`, run
the orchestrator with `previous_image_url`, and assemble a `StoryResponse`
whose `main_quest` is the canonical quest line recomputed from the history
(line 337), not the generator's echo. -/
def next_step (req : NextStepRequest) (ai : AiStoryData) (env : OrchEnv) :
    NextStepOutcome :=
  let quest := mainQuestLine req.story_history
  let choices := if req.current_step = req.total_steps then [] else ai.choices
  let final_image_prompt := IMAGE_CONSISTENCY_RULE ++ " " ++ ai.image_prompt
  let generated_image_url := generate_consistent_image env req.previous_image_url
  { response :=
      { text := ai.text
        image_url := some generated_image_url
        choices := choices
        main_quest := quest }
    prompt := continuationPrompt req
    imagePrompt := final_image_prompt
    actionLine := actionDescriptionLine req
    questLine := quest }

/-- The `next_step` endpoint including its request validation: FastAPI runs
the pydantic validator before the endpoint body, so a validation error is
returned without consulting the narrative generator or the image pipeline. -/
def next_step_endpoint (req : NextStepRequest) (ai : AiStoryData) (env : OrchEnv) :
    Except String NextStepOutcome :=
  match check_choice_or_action req.choice_id req.user_action with
  | .error e => .error e
  | .ok _ => .ok (next_step req ai env)

/-! ## `start_story` (lines 227-274) -/

/-- The opening prompt (lines 234-257): branches on the presence of an
uploaded image and, within that, of a character name. -/
def openingPrompt (req : StoryStartRequest) : String :=
  if pyTruthy req.image_data_url then
    if pyTruthy req.character then
      "这是一张用户上传的图片，请以图片中的主要物体或人物作为故事主角，并将主角命名为 '" ++
        req.character.getD "" ++ "'。" ++
      "在 '" ++ req.setting ++ "' 场景下，为这个主角创作一个引人入胜的儿童故事开篇。" ++
      "这个故事的总长度预计为【" ++ toString req.total_steps ++ "幕】。" ++
      "请确保开篇能够建立一个清晰的主线任务，并为后续发展留下悬念。"
    else
      "这是一张用户上传的图片，请以图片中的主要物体或人物作为故事主角。" ++
      "在 '" ++ req.setting ++ "' 场景下，为这个主角创作一个引人入胜的儿童故事开篇。" ++
      "这个故事的总长度预计为【" ++ toString req.total_steps ++ "幕】。" ++
      "请确保开篇能够建立一个清晰的主线任务，并为后续发展留下悬念。"
  else
    "请为一个关于主角 '" ++ req.character.getD "" ++ "' 在 '" ++ req.setting ++
    "' 场景下的儿童故事，创作一个引人入胜的开篇。" ++
    "这个故事的总长度预计为【" ++ toString req.total_steps ++ "幕】。" ++
    "请确保开篇能够建立一个清晰的主线任务，并为后续发展留下悬念。"

/-- Everything the start operation produces or sends outward. -/
structure StartOutcome where
  response : StoryResponse
  prompt : String
  imagePrompt : String
  deriving Repr

/-- `start_story` (lines 228-274) after validation: compose the opening
prompt, call the narrative generator (output `ai`), compose the image prompt
with the consistency rule, run the orchestrator with the decoded upload as
the initial reference (and no previous image address), and return the
generator's step verbatim with the fresh image address. -/
def start_story (req : StoryStartRequest) (ai : AiStoryData) (env : OrchEnv) :
    StartOutcome :=
  let final_image_prompt := IMAGE_CONSISTENCY_RULE ++ " " ++ ai.image_prompt
  let generated_image_url := generate_consistent_image env none
  { response :=
      { text := ai.text
        image_url := some generated_image_url
        choices := ai.choices
        main_quest := ai.main_quest }
    prompt := openingPrompt req
    imagePrompt := final_image_prompt }

/-! ## Concrete fixtures for witnesses and counterexamples -/

/-- Environment where the image capability raises on every attempt. -/
def envFailAll : OrchEnv :=
  { resolveErr := none
    outcomes := fun _ => .transportError "down"
    decodeErr := none
    persistErr := none
    freshName := "f.png"
    baseUrl := "http://127.0.0.1:8000" }

/-- Environment where attempts 0 and 1 raise and attempt 2 returns a
response whose second part carries inline data. -/
def envThirdOk : OrchEnv :=
  { resolveErr := none
    outcomes := fun n => if n < 2 then .transportError "down"
                         else .response [none, some "BYTES"]
    decodeErr := none
    persistErr := none
    freshName := "f.png"
    baseUrl := "http://127.0.0.1:8000" }

/-- Capability behaviour: attempt 0 succeeds at transport level with zero
inline payloads, every later attempt carries a payload. -/
def outsZeroThenOk : Nat → AttemptOutcome :=
  fun n => if n = 0 then .response [none] else .response [some "BYTES"]

/-- A prior story step with quest "Q" and choices A/B. -/
def stepA : StoryResponse :=
  { text := "小猫出发了"
    image_url := some "http://127.0.0.1:8000/images/a.png"
    choices := [⟨"A", "去森林"⟩, ⟨"B", "回家"⟩]
    main_quest := "Q" }

/-- Non-final advance request (step 1 of 5) choosing option A. -/
def reqNonFinalEmpty : NextStepRequest :=
  { choice_id := some "A"
    user_action := none
    story_history := [stepA]
    previous_image_url := some "http://127.0.0.1:8000/images/a.png"
    current_step := 1
    total_steps := 5 }

/-- Final advance request (step 5 of 5). -/
def reqFinal : NextStepRequest :=
  { choice_id := some "A"
    user_action := none
    story_history := [stepA]
    previous_image_url := some "http://127.0.0.1:8000/images/a.png"
    current_step := 5
    total_steps := 5 }

/-- Advance request with an empty history. -/
def reqEmptyHistory : NextStepRequest :=
  { choice_id := some "A"
    user_action := none
    story_history := []
    previous_image_url := none
    current_step := 2
    total_steps := 5 }

/-- Advance request supplying both a choice and a free action. -/
def reqBothGiven : NextStepRequest :=
  { choice_id := some "A"
    user_action := some "自己去找宝藏"
    story_history := [stepA]
    previous_image_url := none
    current_step := 2
    total_steps := 5 }

/-- Advance request whose `choice_id` "C" matches no id in `stepA.choices`. -/
def reqUnmatchedChoice : NextStepRequest :=
  { choice_id := some "C"
    user_action := none
    story_history := [stepA]
    previous_image_url := some "http://127.0.0.1:8000/images/a.png"
    current_step := 2
    total_steps := 5 }

/-- Generator output with an empty choice list and a drifted quest. -/
def aiEmptyChoices : AiStoryData :=
  { text := "故事继续"
    image_prompt := "a cat in the forest"
    choices := []
    main_quest := "Q2" }

/-- Generator output with two choices and a drifted quest. -/
def aiTwoChoices : AiStoryData :=
  { text := "故事继续"
    image_prompt := "a cat at home"
    choices := [⟨"A", "x"⟩, ⟨"B", "y"⟩]
    main_quest := "Q2" }

/-! ## Claims -/

/-- C1: when the orchestrator body fails for any reason (reference
resolution, the image client with its retries exhausted, decoding, or
persisting), `generate_consistent_image` — a total function, so no
exception crosses its boundary — returns the previous image address
unchanged whenever a non-blank one exists, and the fixed placeholder when
none (or a blank one, which Python truthiness treats as absent) exists. -/
theorem claim_C1_orchestrator_absorbs_failure (env : OrchEnv) (prev : Option String) :
    (∃ e, orchBody env = .error e) →
    (∀ u, prev = some u → u ≠ "" → generate_consistent_image env prev = u) ∧
    ((prev = none ∨ prev = some "") →
      generate_consistent_image env prev = PLACEHOLDER_IMAGE_URL) := by
  rintro ⟨e, he⟩
  constructor
  · rintro u rfl hu
    simp [generate_consistent_image, he, pyTruthy, hu]
  · rintro (rfl | rfl) <;> simp [generate_consistent_image, he, pyTruthy]

/-- Witness for C1 at a concrete total failure. -/
theorem claim_C1_orchestrator_absorbs_failure_witness :
    generate_consistent_image envFailAll (some "http://x/img.png") = "http://x/img.png" ∧
    generate_consistent_image envFailAll none = PLACEHOLDER_IMAGE_URL :=
  ⟨(claim_C1_orchestrator_absorbs_failure envFailAll (some "http://x/img.png")
      ⟨"down", rfl⟩).1 "http://x/img.png" rfl (by decide),
   (claim_C1_orchestrator_absorbs_failure envFailAll none
      ⟨"down", rfl⟩).2 (Or.inl rfl)⟩

/-- C2 counterexample: the claimed "empty iff final" fails on the code. On a
non-final advance step (step 1 of 5) the generator's choice list is passed
through unfiltered, so when the generator returns an empty list the produced
step has empty choices although it is not the final one. -/
theorem claim_C2_choices_iff_counterexample :
    (next_step reqNonFinalEmpty aiEmptyChoices envThirdOk).response.choices = [] ∧
    reqNonFinalEmpty.current_step ≠ reqNonFinalEmpty.total_steps :=
  ⟨rfl, by decide⟩

/-- C2 amended: on the final step (`current_step = total_steps`) the output
choice list is forced empty regardless of the generator's output; on a
non-final step it is exactly the generator's list (hence empty only when the
generator returned an empty list). -/
theorem claim_C2_final_step_forces_empty_choices (req : NextStepRequest)
    (ai : AiStoryData) (env : OrchEnv) :
    (req.current_step = req.total_steps →
      (next_step req ai env).response.choices = []) ∧
    (req.current_step ≠ req.total_steps →
      (next_step req ai env).response.choices = ai.choices) := by
  constructor <;> intro h <;> simp [next_step, h]

/-- Witness for the amended C2: at step 5 of 5 a generator response with two
choices still yields an empty output choice list. -/
theorem claim_C2_final_step_forces_empty_choices_witness :
    (next_step reqFinal aiTwoChoices envThirdOk).response.choices = [] :=
  (claim_C2_final_step_forces_empty_choices reqFinal aiTwoChoices envThirdOk).1 rfl

/-- C3: with a non-empty history, the returned step's `main_quest` is
`history[0].main_quest`, whatever quest string the generator returned. -/
theorem claim_C3_main_quest_override (req : NextStepRequest) (ai : AiStoryData)
    (env : OrchEnv) (h0 : StoryResponse) (rest : List StoryResponse) :
    req.story_history = h0 :: rest →
    (next_step req ai env).response.main_quest = h0.main_quest := by
  intro h
  simp [next_step, mainQuestLine, h]

/-- Witness for C3: the generator drifts the quest to "Q2" but the output
echoes "Q" from `history[0]`. -/
theorem claim_C3_main_quest_override_witness :
    (next_step reqNonFinalEmpty aiEmptyChoices envThirdOk).response.main_quest = "Q" ∧
    aiEmptyChoices.main_quest ≠ "Q" :=
  ⟨claim_C3_main_quest_override reqNonFinalEmpty aiEmptyChoices envThirdOk
      stepA [] rfl,
   by decide⟩

/-- C4: the image client makes up to `MAX_RETRIES = 3` attempts with
backoff `initial_delay * 2 ** attempt` (2 time-units doubling); in a run
where attempts 1 and 2 fail and attempt 3 succeeds, exactly the two delays
2 and 4 are slept and the payload is returned, so an orchestrator whose
remaining steps succeed returns the newly generated address. -/
theorem claim_C4_retry_backoff_then_success (outs : Nat → AttemptOutcome)
    (env : OrchEnv) (prev : Option String) (e0 e1 d : String) :
    attemptResult (outs 0) = .error e0 →
    attemptResult (outs 1) = .error e1 →
    attemptResult (outs 2) = .ok d →
    env.outcomes = outs → env.resolveErr = none → env.decodeErr = none →
    env.persistErr = none →
    MAX_RETRIES = 3 ∧
    [INITIAL_DELAY * 2 ^ 0, INITIAL_DELAY * 2 ^ 1] = [2, 4] ∧
    blocking_image_generation outs = ([2, 4], .ok d) ∧
    generate_consistent_image env prev = env.baseUrl ++ "/images/" ++ env.freshName := by
  intro h0 h1 h2 ho hr hd hp
  have hrun : blocking_image_generation outs = ([2, 4], .ok d) := by
    simp [blocking_image_generation, MAX_RETRIES, imageGenLoop, h0, h1, h2,
      INITIAL_DELAY]
  refine ⟨rfl, rfl, hrun, ?_⟩
  simp [generate_consistent_image, orchBody, hr, hd, hp, ho, hrun]

/-- Witness for C4: attempts 0 and 1 raise, attempt 2 returns inline data;
delays are exactly [2, 4] and the fresh address comes back. -/
theorem claim_C4_retry_backoff_then_success_witness :
    blocking_image_generation envThirdOk.outcomes = ([2, 4], .ok "BYTES") ∧
    generate_consistent_image envThirdOk (some "http://x/old.png") =
      "http://127.0.0.1:8000/images/f.png" :=
  ⟨(claim_C4_retry_backoff_then_success envThirdOk.outcomes envThirdOk
      (some "http://x/old.png") "down" "down" "BYTES"
      rfl rfl rfl rfl rfl rfl rfl).2.2.1,
   (claim_C4_retry_backoff_then_success envThirdOk.outcomes envThirdOk
      (some "http://x/old.png") "down" "down" "BYTES"
      rfl rfl rfl rfl rfl rfl rfl).2.2.2⟩

/-- C5: an attempt succeeds exactly when the response carries at least one
inline payload; a transport-level success with zero payloads is the error
`NO_IMAGE_DATA_MSG`, retried like any other failure (a later attempt can
still succeed); and when all three attempts fail, the last attempt's error
is the one propagated. -/
theorem claim_C5_payload_required_last_error_propagated
    (parts : List (Option String)) (d : String) (outs : Nat → AttemptOutcome)
    (e0 e1 e2 : String) :
    ((attemptResult (.response parts) = .ok d) ↔ firstInlineData parts = some d) ∧
    (firstInlineData parts = none →
      attemptResult (.response parts) = .error NO_IMAGE_DATA_MSG) ∧
    (attemptResult (outs 0) = .error e0 → attemptResult (outs 1) = .ok d →
      (blocking_image_generation outs).2 = .ok d) ∧
    (attemptResult (outs 0) = .error e0 → attemptResult (outs 1) = .error e1 →
      attemptResult (outs 2) = .error e2 →
      (blocking_image_generation outs).2 = .error e2) := by
  refine ⟨?_, ?_, ?_, ?_⟩
  · cases hf : firstInlineData parts <;> simp [attemptResult, hf]
  · intro hf
    simp [attemptResult, hf]
  · intro h0 h1
    simp [blocking_image_generation, MAX_RETRIES, imageGenLoop, h0, h1]
  · intro h0 h1 h2
    simp [blocking_image_generation, MAX_RETRIES, imageGenLoop, h0, h1, h2]

/-- Witness for C5: a zero-payload response errors with `NO_IMAGE_DATA_MSG`
and is retried (attempt 1 then succeeds); with all attempts raising, the
last error is propagated. -/
theorem claim_C5_payload_required_last_error_propagated_witness :
    attemptResult (.response [none]) = .error NO_IMAGE_DATA_MSG ∧
    (blocking_image_generation outsZeroThenOk).2 = .ok "BYTES" ∧
    (blocking_image_generation envFailAll.outcomes).2 = .error "down" :=
  ⟨(claim_C5_payload_required_last_error_propagated [none] "BYTES"
      outsZeroThenOk NO_IMAGE_DATA_MSG "e" "e").2.1 rfl,
   (claim_C5_payload_required_last_error_propagated [none] "BYTES"
      outsZeroThenOk NO_IMAGE_DATA_MSG "e" "e").2.2.1 rfl rfl,
   (claim_C5_payload_required_last_error_propagated [none] "BYTES"
      envFailAll.outcomes "down" "down" "down").2.2.2 rfl rfl rfl⟩

/-- C6: the advance validator rejects exactly when not exactly one of
{choice identifier, free-text action} is given (both given, or neither
given, where "given" is the validator's own test: a present `choice_id`, a
present non-blank `user_action`); and on a rejected request the endpoint's
result is an error that does not depend on the narrative generator's output
or the image environment — no generation is consulted. -/
theorem claim_C6_validation_exactly_one (cid ua : Option String) :
    ((check_choice_or_action cid ua ≠ .ok ()) ↔ choiceGiven cid = actionGiven ua) ∧
    (∀ req : NextStepRequest, ∀ ai ai' : AiStoryData, ∀ env env' : OrchEnv,
      req.choice_id = cid → req.user_action = ua →
      choiceGiven cid = actionGiven ua →
      next_step_endpoint req ai env = next_step_endpoint req ai' env' ∧
      ∃ e, next_step_endpoint req ai env = .error e) := by
  constructor
  · cases hc : choiceGiven cid <;> cases ha : actionGiven ua <;>
      simp [check_choice_or_action, hc, ha]
  · intro req ai ai' env env' h1 h2 heq
    cases hc : choiceGiven cid <;> cases ha : actionGiven ua <;>
      rw [hc, ha] at heq <;>
      simp_all [next_step_endpoint, check_choice_or_action]

/-- Witness for C6: both-given and neither-given are rejected, and a
rejected request yields the same error under completely different generator
outputs and image environments. -/
theorem claim_C6_validation_exactly_one_witness :
    (check_choice_or_action (some "A") (some "自己去找宝藏") ≠ .ok ()) ∧
    next_step_endpoint reqBothGiven aiEmptyChoices envThirdOk =
      next_step_endpoint reqBothGiven aiTwoChoices envFailAll ∧
    (check_choice_or_action none none ≠ .ok ()) :=
  ⟨(claim_C6_validation_exactly_one (some "A") (some "自己去找宝藏")).1.mpr
      (by decide),
   ((claim_C6_validation_exactly_one (some "A") (some "自己去找宝藏")).2
      reqBothGiven aiEmptyChoices aiTwoChoices envThirdOk envFailAll
      rfl rfl (by decide)).1,
   (claim_C6_validation_exactly_one none none).1.mpr rfl⟩

/-- C7: for `1 ≤ current_step ≤ total_steps` the phase driving the
narrative guidance follows the spec thresholds exactly: finale at
`current_step = total_steps`, climax when `0.75 * total_steps ≤
current_step < total_steps` (the float test is the exact rational test
`3 * total ≤ 4 * current`), developing when `current_step <
0.75 * total_steps`. -/
theorem claim_C7_phase_thresholds (c t : Nat) :
    1 ≤ c → c ≤ t →
    (phaseOf c t = .finale ↔ c = t) ∧
    (phaseOf c t = .climax ↔ (3 * t ≤ 4 * c ∧ c < t)) ∧
    (phaseOf c t = .developing ↔ 4 * c < 3 * t) := by
  intro h1 h2
  refine ⟨?_, ?_, ?_⟩ <;> unfold phaseOf <;> split_ifs with hf hc <;>
    simp_all <;> omega

/-- Witness for C7 at 4/4 (finale), 3/4 (climax, as 12 ≤ 12), 2/4
(developing, as 8 < 12). -/
theorem claim_C7_phase_thresholds_witness :
    phaseOf 4 4 = Phase.finale ∧ phaseOf 3 4 = Phase.climax ∧
    phaseOf 2 4 = Phase.developing :=
  ⟨(claim_C7_phase_thresholds 4 4 (by decide) (by decide)).1.mpr rfl,
   (claim_C7_phase_thresholds 3 4 (by decide) (by decide)).2.1.mpr (by decide),
   (claim_C7_phase_thresholds 2 4 (by decide) (by decide)).2.2.mpr (by decide)⟩

/-- C8: a (truthy) `choice_id` matching no id in the previous step's
choices resolves to the generic fallback text, the player's action line uses
that fallback phrase, and the endpoint still succeeds (no exception). -/
theorem claim_C8_unmatched_choice_falls_back (req : NextStepRequest)
    (ai : AiStoryData) (env : OrchEnv) (cid : String) (last : StoryResponse) :
    req.user_action = none → req.choice_id = some cid → cid ≠ "" →
    req.story_history.getLast? = some last →
    (∀ c ∈ last.choices, c.id ≠ cid) →
    resolveChoiceText req.story_history cid = FALLBACK_CHOICE_TEXT ∧
    (next_step req ai env).actionLine =
      "在故事的最新发展中，主角选择了选项：'" ++ FALLBACK_CHOICE_TEXT ++ "'。" ∧
    next_step_endpoint req ai env = .ok (next_step req ai env) := by
  intro hua hcid hne hlast hnomatch
  have hfind : last.choices.find? (fun c => c.id == cid) = none := by
    rw [List.find?_eq_none]
    intro c hc
    simpa using hnomatch c hc
  have hres : resolveChoiceText req.story_history cid = FALLBACK_CHOICE_TEXT := by
    simp [resolveChoiceText, hlast, hfind]
  refine ⟨hres, ?_, ?_⟩
  · simp [next_step, actionDescriptionLine, hua, hcid, pyTruthy, hne, hres]
  · simp [next_step_endpoint, check_choice_or_action, choiceGiven, actionGiven,
      hcid, hua]

/-- Witness for C8: `choice_id = "C"` matches neither "A" nor "B" in the
previous step; the action line carries the fallback phrase. -/
theorem claim_C8_unmatched_choice_falls_back_witness :
    (next_step reqUnmatchedChoice aiTwoChoices envThirdOk).actionLine =
      "在故事的最新发展中，主角选择了选项：'" ++ FALLBACK_CHOICE_TEXT ++ "'。" :=
  (claim_C8_unmatched_choice_falls_back reqUnmatchedChoice aiTwoChoices
      envThirdOk "C" stepA rfl rfl (by decide) rfl (by decide)).2.1

/-- C9: both operations compose the image prompt as the constant
`IMAGE_CONSISTENCY_RULE`, a single space, then the generator's
scene-specific description — the directive is the same constant for every
start and advance step. -/
theorem claim_C9_consistency_rule_prepended (sreq : StoryStartRequest)
    (nreq : NextStepRequest) (ai ai' : AiStoryData) (env env' : OrchEnv) :
    (start_story sreq ai env).imagePrompt =
      IMAGE_CONSISTENCY_RULE ++ " " ++ ai.image_prompt ∧
    (next_step nreq ai' env').imagePrompt =
      IMAGE_CONSISTENCY_RULE ++ " " ++ ai'.image_prompt :=
  ⟨rfl, rfl⟩

/-- C10: with an empty history, the canonical quest line (used in the
continuation prompt and echoed as the returned step's `main_quest`) defaults
to "继续探索", and resolving any supplied `choice_id` yields the generic
"继续" action text; nothing fails. -/
theorem claim_C10_empty_history_defaults (req : NextStepRequest)
    (ai : AiStoryData) (env : OrchEnv) (cid : String) :
    req.story_history = [] →
    mainQuestLine req.story_history = "继续探索" ∧
    (next_step req ai env).response.main_quest = "继续探索" ∧
    (next_step req ai env).questLine = "继续探索" ∧
    resolveChoiceText req.story_history cid = "继续" := by
  intro h
  refine ⟨?_, ?_, ?_, ?_⟩ <;>
    simp [next_step, mainQuestLine, resolveChoiceText, h, FALLBACK_QUEST,
      FALLBACK_CHOICE_TEXT]

/-- Witness for C10 on a concrete empty-history request. -/
theorem claim_C10_empty_history_defaults_witness :
    (next_step reqEmptyHistory aiTwoChoices envFailAll).response.main_quest =
      "继续探索" ∧
    resolveChoiceText reqEmptyHistory.story_history "A" = "继续" :=
  ⟨(claim_C10_empty_history_defaults reqEmptyHistory aiTwoChoices envFailAll
      "A" rfl).2.1,
   (claim_C10_empty_history_defaults reqEmptyHistory aiTwoChoices envFailAll
      "A" rfl).2.2.2⟩

end StoryWeaver
